import Mathlib

/-!
Verification of the femto-fsrs scheduling engine (src/index.ts).

The TypeScript source is a collection of pure numeric functions over IEEE
doubles.  We embed them shallowly over the real numbers `ℝ`:

* `Math.pow x y` on a positive base agrees with `Real.rpow`;
* `Math.exp` is `Real.exp`;
* `Math.max` / `Math.min` are `max` / `min`;
* a grade is carried as a real number, exactly as the JS enum value flows
  through the arithmetic (`G - 3`, `grade === Grade.AGAIN`, ...).

Array access `w[i]` with an in-range natural index is `List.getD w i 0`.
JavaScript yields `undefined` (propagating to `NaN`) out of range; `ℝ` has
no `NaN`, so the model returns `0` there.  Every theorem below either stays
in range (the reference vector has all 17 entries) or only uses the fact
that an out-of-range read differs from the in-range default value, which
holds for `NaN` and for `0` alike.
-/

set_option linter.unusedVariables false

namespace FemtoFsrs

open Real

noncomputable section

/-- Constant `DECAY` from src/index.ts. -/
def DECAY : ℝ := -0.5

/-- Constant `FACTOR = 19 / 81` from src/index.ts. -/
def FACTOR : ℝ := 19 / 81

/-- The reference 17-entry weight vector `DEFAULT_W` from src/index.ts. -/
def DEFAULT_W : List ℝ :=
  [0.4, 0.6, 2.4, 5.8, 4.93, 0.94, 0.86, 0.01, 1.49, 0.14, 0.94, 2.18, 0.05,
   0.34, 1.26, 0.29, 2.61]

/-- Grade `AGAIN = 1` (the numeric value of the TS enum member). -/
def AGAIN : ℝ := 1

/-- Grade `HARD = 2`. -/
def HARD : ℝ := 2

/-- Grade `GOOD = 3`. -/
def GOOD : ℝ := 3

/-- Grade `EASY = 4`. -/
def EASY : ℝ := 4

/-- The `DeckParams` record from src/index.ts. -/
structure DeckParams where
  requestedRetentionRate : ℝ
  w : List ℝ

/-- The `DEFAULT_PARAMS` record from src/index.ts. -/
def DEFAULT_PARAMS : DeckParams :=
  { requestedRetentionRate := 0.9, w := DEFAULT_W }

/-- The TS type `DifficultyAndStability`: the part of a card `gradeCard`
receives. -/
structure DifficultyAndStability where
  D : ℝ
  S : ℝ

/-- The TS interface `Card` (extends `DifficultyAndStability` with `I`). -/
structure Card where
  D : ℝ
  S : ℝ
  I : ℝ

/-- Forgetting the interval: a `Card` used where `DifficultyAndStability`
is expected, as TS structural subtyping does implicitly. -/
def Card.toDS (c : Card) : DifficultyAndStability := ⟨c.D, c.S⟩

/-- JavaScript `a || b` on numbers: `b` exactly when `a` is falsy.  Over
`ℝ` the falsy numbers are just `0` (`NaN` does not exist in the model). -/
def orNum (a b : ℝ) : ℝ := if a = 0 then b else a

/-- JavaScript `a || b` on arrays: every array (including `[]`) is truthy,
so the expression always evaluates to `a`. -/
def orArr (a _b : List ℝ) : List ℝ := a

/-- Resolution `const w = params.w || DEFAULT_PARAMS.w` in `createDeck`. -/
def resolveW (p : DeckParams) : List ℝ := orArr p.w DEFAULT_PARAMS.w

/-- Resolution `const requestedRetentionRate = params.requestedRetentionRate
|| DEFAULT_PARAMS.requestedRetentionRate` in `createDeck`. -/
def resolveRate (p : DeckParams) : ℝ :=
  orNum p.requestedRetentionRate DEFAULT_PARAMS.requestedRetentionRate

/-- `retrievability(t, S) = Math.pow(1 + FACTOR * (t / S), DECAY)`. -/
def retrievability (t S : ℝ) : ℝ :=
  (1 + FACTOR * (t / S)) ^ DECAY

/-- `nextInterval(R, S) = (S / FACTOR) * (Math.pow(R, 1 / DECAY) - 1)`. -/
def nextInterval (R S : ℝ) : ℝ :=
  (S / FACTOR) * (R ^ (1 / DECAY) - 1)

/-- JavaScript array read `w[i]` for a real index as it occurs in
`initialStability`: the element when the index is an in-range integer,
`0` (for `undefined`/`NaN`) otherwise. -/
def jsIndex (w : List ℝ) (i : ℝ) : ℝ :=
  if 0 ≤ i ∧ (⌊i⌋ : ℝ) = i then w.getD ⌊i⌋.toNat 0 else 0

/-- `initialStability(G) = w[G - 1]`. -/
def initialStability (w : List ℝ) (G : ℝ) : ℝ :=
  jsIndex w (G - 1)

/-- `initialDifficulty(G) = clamp(w[4] + (G - 3) * w[5], 1, 10)`, with the
clamp written `Math.max(1, Math.min(10, val))` as in the source. -/
def initialDifficulty (w : List ℝ) (G : ℝ) : ℝ :=
  max 1 (min 10 (w.getD 4 0 + (G - 3) * w.getD 5 0))

/-- `nextDifficulty(D, G) = clamp(w[7] * initialDifficulty(3) +
(1 - w[7]) * (D - w[6] * (G - 3)), 1, 10)`. -/
def nextDifficulty (w : List ℝ) (D G : ℝ) : ℝ :=
  max 1 (min 10
    (w.getD 7 0 * initialDifficulty w 3 + (1 - w.getD 7 0) * (D - w.getD 6 0 * (G - 3))))

/-- `nextStabilityAfterRecall(d, s, r, g)` from src/index.ts. -/
def nextStabilityAfterRecall (w : List ℝ) (d s r g : ℝ) : ℝ :=
  let hard_penalty : ℝ := if HARD = g then w.getD 15 0 else 1
  let easy_bound : ℝ := if EASY = g then w.getD 16 0 else 1
  s * (1 + Real.exp (w.getD 8 0) * (11 - d) * s ^ (-(w.getD 9 0)) *
    (Real.exp ((1 - r) * w.getD 10 0) - 1) * hard_penalty * easy_bound)

/-- `nextStabilityAfterForgetting(d, s, r)` from src/index.ts. -/
def nextStabilityAfterForgetting (w : List ℝ) (d s r : ℝ) : ℝ :=
  w.getD 11 0 * d ^ (-(w.getD 12 0)) * ((s + 1) ^ (w.getD 13 0) - 1) *
    Real.exp ((1 - r) * w.getD 14 0)

/-- `newCard(grade)` of the deck `createDeck(p)`. -/
def newCard (p : DeckParams) (grade : ℝ) : Card :=
  let w := resolveW p
  let D := initialDifficulty w grade
  let S := initialStability w grade
  let I := nextInterval (resolveRate p) S
  { D := D, S := S, I := I }

/-- `gradeCard(card, daysSinceReview, grade)` of the deck `createDeck(p)`. -/
def gradeCard (p : DeckParams) (card : DifficultyAndStability)
    (daysSinceReview : ℝ) (grade : ℝ) : Card :=
  let w := resolveW p
  let currentRetrievability := retrievability daysSinceReview card.S
  let D := nextDifficulty w card.D grade
  let S :=
    if grade = AGAIN then
      nextStabilityAfterForgetting w D card.S currentRetrievability
    else
      nextStabilityAfterRecall w D card.S currentRetrievability grade
  let I := nextInterval (resolveRate p) S
  { D := D, S := S, I := I }

end

/-! ### Weight-vector entries of the reference configuration -/

lemma wget2 : DEFAULT_W.getD 2 0 = 2.4 := rfl

lemma wget4 : DEFAULT_W.getD 4 0 = 4.93 := rfl

lemma wget5 : DEFAULT_W.getD 5 0 = 0.94 := rfl

lemma wget6 : DEFAULT_W.getD 6 0 = 0.86 := rfl

lemma wget7 : DEFAULT_W.getD 7 0 = 0.01 := rfl

lemma wget8 : DEFAULT_W.getD 8 0 = 1.49 := rfl

lemma wget9 : DEFAULT_W.getD 9 0 = 0.14 := rfl

lemma wget10 : DEFAULT_W.getD 10 0 = 0.94 := rfl

lemma wget11 : DEFAULT_W.getD 11 0 = 2.18 := rfl

lemma wget12 : DEFAULT_W.getD 12 0 = 0.05 := rfl

lemma wget13 : DEFAULT_W.getD 13 0 = 0.34 := rfl

lemma wget14 : DEFAULT_W.getD 14 0 = 1.26 := rfl

lemma wget15 : DEFAULT_W.getD 15 0 = 0.29 := rfl

lemma wget16 : DEFAULT_W.getD 16 0 = 2.61 := rfl

/-! ### Round-trip identities between retrievability and nextInterval -/

lemma DECAY_eq : DECAY = -(1 / 2) := by norm_num [DECAY]

lemma resolveRate_default : resolveRate DEFAULT_PARAMS = 0.9 := by
  norm_num [resolveRate, orNum, DEFAULT_PARAMS]

lemma resolveW_default : resolveW DEFAULT_PARAMS = DEFAULT_W := rfl

/-- Composing `nextInterval` with `retrievability` recovers the requested
retention exactly (over the reals). -/
lemma retrievability_nextInterval {R S : ℝ} (hS : 0 < S) (hR : 0 < R) :
    retrievability (nextInterval R S) S = R := by
  have hS0 : S ≠ 0 := ne_of_gt hS
  have hF : FACTOR ≠ 0 := by norm_num [FACTOR]
  have hpow : R ^ (1 / DECAY) = R ^ (-2 : ℝ) := by norm_num [DECAY]
  have h1 : (1 : ℝ) + FACTOR * (nextInterval R S / S) = R ^ (-2 : ℝ) := by
    rw [nextInterval, hpow]
    field_simp
    ring
  rw [retrievability, h1, DECAY_eq, ← Real.rpow_mul hR.le,
    show ((-2 : ℝ) * -(1 / 2) : ℝ) = 1 by norm_num, Real.rpow_one]

/-- At the reference retention `0.9` the next interval is the stability
itself, for every real stability. -/
lemma nextInterval_nine (S : ℝ) : nextInterval (0.9 : ℝ) S = S := by
  have hdec : (1 / DECAY : ℝ) = ((-2 : ℤ) : ℝ) := by norm_num [DECAY]
  have hpow : (0.9 : ℝ) ^ (1 / DECAY) = 100 / 81 := by
    rw [hdec, Real.rpow_intCast]
    norm_num
  rw [nextInterval, hpow]
  norm_num [FACTOR]

/-- Defining property of stability: elapsed time equal to the stability
gives retrievability exactly `0.9`. -/
lemma retrievability_self {S : ℝ} (hS : 0 < S) : retrievability S S = 0.9 := by
  have h := retrievability_nextInterval hS (show (0 : ℝ) < 0.9 by norm_num)
  rwa [nextInterval_nine] at h

/-- The exponent `1 / DECAY` applied by `nextInterval` is the integer `-2`. -/
lemma rpow_one_div_DECAY (R : ℝ) : R ^ (1 / DECAY) = (R ^ (2 : ℕ))⁻¹ := by
  have hdec : (1 / DECAY : ℝ) = ((-2 : ℤ) : ℝ) := by norm_num [DECAY]
  rw [hdec, Real.rpow_intCast]
  simp [zpow_neg]
  norm_cast

/-- Array reads at genuine natural indices agree with `List.getD`. -/
lemma jsIndex_natCast (w : List ℝ) (n : ℕ) : jsIndex w (n : ℝ) = w.getD n 0 := by
  simp [jsIndex, Int.floor_natCast]

lemma initialStability_default_GOOD : initialStability DEFAULT_W GOOD = 2.4 := by
  have h : (GOOD - 1 : ℝ) = ((2 : ℕ) : ℝ) := by norm_num [GOOD]
  rw [initialStability, h, jsIndex_natCast, wget2]

lemma initialStability_default_five : initialStability DEFAULT_W 5 = 4.93 := by
  have h : ((5 : ℝ) - 1 : ℝ) = ((4 : ℕ) : ℝ) := by norm_num
  rw [initialStability, h, jsIndex_natCast, wget4]

/-- Both clamp bounds hold for every real input. -/
lemma clamp_bounds (x : ℝ) : 1 ≤ max 1 (min 10 x) ∧ max 1 (min 10 x) ≤ 10 :=
  ⟨le_max_left _ _, max_le (by norm_num) (min_le_left _ _)⟩

/-! ### Claim theorems -/

/-- C2: for `S > 0` and `R ∈ (0,1]`, `nextInterval` and `retrievability` are
mutual inverses — the round trip recovers `R` within `1e-6` (in fact exactly),
`nextInterval 0.9 S = S`, and `retrievability S S = 0.9`. -/
theorem C2_interval_inverse {R S : ℝ} (hS : 0 < S) (hR : 0 < R) (hR1 : R ≤ 1) :
    |retrievability (nextInterval R S) S - R| ≤ 1e-6 ∧
      nextInterval (0.9 : ℝ) S = S ∧ retrievability S S = 0.9 := by
  refine ⟨?_, nextInterval_nine S, retrievability_self hS⟩
  rw [retrievability_nextInterval hS hR, sub_self, abs_zero]
  norm_num

theorem C2_interval_inverse_witness :
    |retrievability (nextInterval (1 / 2) 2) 2 - 1 / 2| ≤ 1e-6 ∧
      nextInterval (0.9 : ℝ) 2 = 2 ∧ retrievability 2 2 = 0.9 :=
  C2_interval_inverse (by norm_num) (by norm_num) (by norm_num)

/-- C5: every difficulty the engine produces is clamped into `[1, 10]`:
`initialDifficulty` for any grade and `nextDifficulty` for any current
difficulty (boundaries included) and any of the four grades. -/
theorem C5_difficulty_in_range (w : List ℝ) (D G : ℝ)
    (hG : G = AGAIN ∨ G = HARD ∨ G = GOOD ∨ G = EASY) :
    (1 ≤ initialDifficulty w G ∧ initialDifficulty w G ≤ 10) ∧
      (1 ≤ nextDifficulty w D G ∧ nextDifficulty w D G ≤ 10) :=
  ⟨clamp_bounds _, clamp_bounds _⟩

theorem C5_difficulty_in_range_witness :
    (1 ≤ initialDifficulty DEFAULT_W EASY ∧ initialDifficulty DEFAULT_W EASY ≤ 10) ∧
      (1 ≤ nextDifficulty DEFAULT_W 10 EASY ∧ nextDifficulty DEFAULT_W 10 EASY ≤ 10) :=
  C5_difficulty_in_range DEFAULT_W 10 EASY (Or.inr (Or.inr (Or.inr rfl)))

/-- C9: `gradeCard` never reads the interval field of the incoming card:
two cards agreeing on difficulty and stability grade identically whatever
their `I` fields are. -/
theorem C9_interval_not_read (p : DeckParams) (c₁ c₂ : Card) (t g : ℝ)
    (hD : c₁.D = c₂.D) (hS : c₁.S = c₂.S) :
    gradeCard p c₁.toDS t g = gradeCard p c₂.toDS t g := by
  simp [Card.toDS, hD, hS]

theorem C9_interval_not_read_witness :
    gradeCard DEFAULT_PARAMS (Card.toDS ⟨5, 2, 100⟩) 1 GOOD =
      gradeCard DEFAULT_PARAMS (Card.toDS ⟨5, 2, -7⟩) 1 GOOD :=
  C9_interval_not_read DEFAULT_PARAMS ⟨5, 2, 100⟩ ⟨5, 2, -7⟩ 1 GOOD rfl rfl

/-- C1: `gradeCard` is exactly the composition the spec prescribes.
Retrievability is frozen from the elapsed days and the pre-update stability,
difficulty is updated first, the stability branch is selected by grade —
forgetting for `AGAIN`, recall for the other three grades, exhaustively and
disjointly — both branches receive the frozen `r` and the updated `D'`, and
the interval is `nextInterval` of the configured retention and the new
stability. -/
theorem C1_gradeCard_composition (p : DeckParams) (c : DifficultyAndStability)
    (t g : ℝ) (hg : g = AGAIN ∨ g = HARD ∨ g = GOOD ∨ g = EASY) :
    (g = AGAIN ∧ ¬(g = HARD ∨ g = GOOD ∨ g = EASY) ∧
      gradeCard p c t g =
        { D := nextDifficulty (resolveW p) c.D g
          S := nextStabilityAfterForgetting (resolveW p)
                 (nextDifficulty (resolveW p) c.D g) c.S (retrievability t c.S)
          I := nextInterval (resolveRate p)
                 (nextStabilityAfterForgetting (resolveW p)
                   (nextDifficulty (resolveW p) c.D g) c.S
                   (retrievability t c.S)) }) ∨
    ((g = HARD ∨ g = GOOD ∨ g = EASY) ∧ ¬g = AGAIN ∧
      gradeCard p c t g =
        { D := nextDifficulty (resolveW p) c.D g
          S := nextStabilityAfterRecall (resolveW p)
                 (nextDifficulty (resolveW p) c.D g) c.S
                 (retrievability t c.S) g
          I := nextInterval (resolveRate p)
                 (nextStabilityAfterRecall (resolveW p)
                   (nextDifficulty (resolveW p) c.D g) c.S
                   (retrievability t c.S) g) }) := by
  rcases hg with h | h | h | h
  · subst h
    left
    refine ⟨rfl, by norm_num [AGAIN, HARD, GOOD, EASY], ?_⟩
    simp only [gradeCard, eq_self_iff_true, if_true]
  · subst h
    right
    refine ⟨Or.inl rfl, by norm_num [AGAIN, HARD], ?_⟩
    simp only [gradeCard]
    rw [if_neg (by norm_num [AGAIN, HARD])]
  · subst h
    right
    refine ⟨Or.inr (Or.inl rfl), by norm_num [AGAIN, GOOD], ?_⟩
    simp only [gradeCard]
    rw [if_neg (by norm_num [AGAIN, GOOD])]
  · subst h
    right
    refine ⟨Or.inr (Or.inr rfl), by norm_num [AGAIN, EASY], ?_⟩
    simp only [gradeCard]
    rw [if_neg (by norm_num [AGAIN, EASY])]

theorem C1_gradeCard_composition_witness :
    EASY = AGAIN ∧ ¬(EASY = HARD ∨ EASY = GOOD ∨ EASY = EASY) ∧
      gradeCard DEFAULT_PARAMS ⟨5, 2⟩ 1 EASY =
        { D := nextDifficulty (resolveW DEFAULT_PARAMS) 5 EASY
          S := nextStabilityAfterForgetting (resolveW DEFAULT_PARAMS)
                 (nextDifficulty (resolveW DEFAULT_PARAMS) 5 EASY) 2
                 (retrievability 1 2)
          I := nextInterval (resolveRate DEFAULT_PARAMS)
                 (nextStabilityAfterForgetting (resolveW DEFAULT_PARAMS)
                   (nextDifficulty (resolveW DEFAULT_PARAMS) 5 EASY) 2
                   (retrievability 1 2)) } ∨
    (EASY = HARD ∨ EASY = GOOD ∨ EASY = EASY) ∧ ¬EASY = AGAIN ∧
      gradeCard DEFAULT_PARAMS ⟨5, 2⟩ 1 EASY =
        { D := nextDifficulty (resolveW DEFAULT_PARAMS) 5 EASY
          S := nextStabilityAfterRecall (resolveW DEFAULT_PARAMS)
                 (nextDifficulty (resolveW DEFAULT_PARAMS) 5 EASY) 2
                 (retrievability 1 2) EASY
          I := nextInterval (resolveRate DEFAULT_PARAMS)
                 (nextStabilityAfterRecall (resolveW DEFAULT_PARAMS)
                   (nextDifficulty (resolveW DEFAULT_PARAMS) 5 EASY) 2
                   (retrievability 1 2) EASY) } :=
  C1_gradeCard_composition DEFAULT_PARAMS ⟨5, 2⟩ 1 EASY
    (Or.inr (Or.inr (Or.inr rfl)))

lemma initialDifficulty_default_three : initialDifficulty DEFAULT_W 3 = 4.93 := by
  rw [initialDifficulty, wget4, wget5]
  norm_num

/-- The reference difficulty update, with the weight entries filled in. -/
lemma nextDifficulty_default (D G : ℝ) :
    nextDifficulty DEFAULT_W D G =
      max 1 (min 10 (0.01 * 4.93 + (1 - 0.01) * (D - 0.86 * (G - 3)))) := by
  rw [nextDifficulty, wget6, wget7, initialDifficulty_default_three]

/-- Immediate review gives retrievability one, for every stability. -/
lemma retrievability_zero (S : ℝ) : retrievability 0 S = 1 := by
  rw [retrievability, zero_div, mul_zero, add_zero, Real.one_rpow]

/-- With retrievability one the recall growth term vanishes exactly. -/
lemma nextStabilityAfterRecall_at_one (w : List ℝ) (d s g : ℝ) :
    nextStabilityAfterRecall w d s 1 g = s := by
  simp [nextStabilityAfterRecall]

/-- C10: grading with elapsed days `0` on the recall branch returns the
stability unchanged (retrievability is `1`, zeroing the growth term), while
the difficulty can still move, as the concrete `HARD` instance shows. -/
theorem C10_immediate_recall_keeps_stability :
    (∀ (p : DeckParams) (c : DifficultyAndStability) (g : ℝ), 0 < c.S →
        g = HARD ∨ g = GOOD ∨ g = EASY → (gradeCard p c 0 g).S = c.S) ∧
      (gradeCard DEFAULT_PARAMS ⟨5, 2⟩ 0 HARD).D ≠ 5 := by
  constructor
  · intro p c g hS hg
    have hne : ¬g = AGAIN := by
      rcases hg with h | h | h <;> subst h <;> norm_num [AGAIN, HARD, GOOD, EASY]
    simp only [gradeCard]
    rw [if_neg hne, retrievability_zero, nextStabilityAfterRecall_at_one]
  · simp only [gradeCard]
    rw [resolveW_default, nextDifficulty_default]
    norm_num [HARD, min_def, max_def]

theorem C10_immediate_recall_keeps_stability_witness :
    (gradeCard DEFAULT_PARAMS ⟨5, 2⟩ 0 GOOD).S = 2 :=
  C10_immediate_recall_keeps_stability.1 DEFAULT_PARAMS ⟨5, 2⟩ GOOD
    (by norm_num) (Or.inr (Or.inl rfl))

/-- On the recall branch the returned stability is at least the old one,
for any difficulty not above `10`, positive old stability and
retrievability at most one, with the reference weights. -/
lemma nextStabilityAfterRecall_ge {D S r : ℝ} (g : ℝ) (hD10 : D ≤ 10)
    (hS : 0 < S) (hr1 : r ≤ 1) :
    S ≤ nextStabilityAfterRecall DEFAULT_W D S r g := by
  simp only [nextStabilityAfterRecall]
  have hhp : 0 ≤ (if HARD = g then DEFAULT_W.getD 15 0 else 1) := by
    split
    · rw [wget15]; norm_num
    · norm_num
  have heb : 0 ≤ (if EASY = g then DEFAULT_W.getD 16 0 else 1) := by
    split
    · rw [wget16]; norm_num
    · norm_num
  have hexp : 0 ≤ Real.exp ((1 - r) * DEFAULT_W.getD 10 0) - 1 := by
    rw [wget10]
    have h0 : 0 ≤ (1 - r) * (0.94 : ℝ) := by nlinarith
    have h1 := Real.add_one_le_exp ((1 - r) * (0.94 : ℝ))
    linarith
  have hX : 0 ≤ Real.exp (DEFAULT_W.getD 8 0) * (11 - D) *
      S ^ (-(DEFAULT_W.getD 9 0)) *
      (Real.exp ((1 - r) * DEFAULT_W.getD 10 0) - 1) *
      (if HARD = g then DEFAULT_W.getD 15 0 else 1) *
      (if EASY = g then DEFAULT_W.getD 16 0 else 1) := by
    have h11 : (0 : ℝ) ≤ 11 - D := by linarith
    have hs' : (0 : ℝ) ≤ S ^ (-(DEFAULT_W.getD 9 0)) := Real.rpow_nonneg hS.le _
    have he : (0 : ℝ) ≤ Real.exp (DEFAULT_W.getD 8 0) := (Real.exp_pos _).le
    exact mul_nonneg (mul_nonneg (mul_nonneg (mul_nonneg
      (mul_nonneg he h11) hs') hexp) hhp) heb
  nlinarith [hX, hS]

/-- The forgetting formula is strictly positive on its whole domain with the
reference weights. -/
lemma nextStabilityAfterForgetting_pos {D S r : ℝ} (hD1 : 1 ≤ D)
    (hS : 0 < S) :
    0 < nextStabilityAfterForgetting DEFAULT_W D S r := by
  rw [nextStabilityAfterForgetting, wget11, wget12, wget13, wget14]
  have hD0 : (0 : ℝ) < D := by linarith
  have h1 : (0 : ℝ) < D ^ (-(0.05 : ℝ)) := Real.rpow_pos_of_pos hD0 _
  have h2 : (0 : ℝ) < (S + 1) ^ (0.34 : ℝ) - 1 := by
    have hgt : (1 : ℝ) < (S + 1) ^ (0.34 : ℝ) := by
      rw [Real.one_lt_rpow_iff_of_pos (by linarith)]
      left
      constructor <;> [linarith; norm_num]
    linarith
  have h3 : (0 : ℝ) < Real.exp ((1 - r) * 1.26) := Real.exp_pos _
  positivity

/-- C6: with the reference weights, both stability transitions return a
strictly positive stability for every in-domain input: `D ∈ [1,10]`,
`S > 0`, `r ∈ (0,1]`, recall for any of the grades `HARD`, `GOOD`, `EASY`,
forgetting unconditionally. -/
theorem C6_stability_positive (D S r g : ℝ) (hD1 : 1 ≤ D) (hD10 : D ≤ 10)
    (hS : 0 < S) (hr0 : 0 < r) (hr1 : r ≤ 1)
    (hg : g = HARD ∨ g = GOOD ∨ g = EASY) :
    0 < nextStabilityAfterRecall DEFAULT_W D S r g ∧
      0 < nextStabilityAfterForgetting DEFAULT_W D S r :=
  ⟨lt_of_lt_of_le hS (nextStabilityAfterRecall_ge g hD10 hS hr1),
    nextStabilityAfterForgetting_pos hD1 hS⟩

theorem C6_stability_positive_witness :
    0 < nextStabilityAfterRecall DEFAULT_W 5 2 (1 / 2) HARD ∧
      0 < nextStabilityAfterForgetting DEFAULT_W 5 2 (1 / 2) :=
  C6_stability_positive 5 2 (1 / 2) HARD (by norm_num) (by norm_num)
    (by norm_num) (by norm_num) (by norm_num) (Or.inl rfl)

/-- C7: with the reference weights the recall transition never decreases
stability: for `D' ∈ [1,10]`, `S > 0`, `r ∈ (0,1]` and any of the grades
`HARD`, `GOOD`, `EASY`, the growth factor is at least one. -/
theorem C7_recall_monotone (D S r g : ℝ) (hD1 : 1 ≤ D) (hD10 : D ≤ 10)
    (hS : 0 < S) (hr0 : 0 < r) (hr1 : r ≤ 1)
    (hg : g = HARD ∨ g = GOOD ∨ g = EASY) :
    S ≤ nextStabilityAfterRecall DEFAULT_W D S r g :=
  nextStabilityAfterRecall_ge g hD10 hS hr1

theorem C7_recall_monotone_witness :
    (2 : ℝ) ≤ nextStabilityAfterRecall DEFAULT_W 5 2 (1 / 2) EASY :=
  C7_recall_monotone 5 2 (1 / 2) EASY (by norm_num) (by norm_num)
    (by norm_num) (by norm_num) (by norm_num) (Or.inr (Or.inr rfl))

/-- C8: nothing validates and nothing signals: `gradeCard` and `newCard`
return a value on every input whatsoever (they are total), and out-of-domain
inputs flow straight through the formulas — a retention rate of `1.5` yields
a negative interval, and the out-of-range grade `5` silently reads `w[4]`
as its initial stability. -/
theorem C8_no_validation :
    (∀ (p : DeckParams) (c : DifficultyAndStability) (t g : ℝ),
        ∃ out : Card, gradeCard p c t g = out) ∧
      (∀ (p : DeckParams) (g : ℝ), ∃ out : Card, newCard p g = out) ∧
      (newCard ⟨1.5, DEFAULT_W⟩ GOOD).I < 0 ∧
      (newCard DEFAULT_PARAMS 5).S = 4.93 := by
  refine ⟨fun p c t g => ⟨_, rfl⟩, fun p g => ⟨_, rfl⟩, ?_, ?_⟩
  · simp only [newCard]
    have hrate : resolveRate ⟨1.5, DEFAULT_W⟩ = 1.5 := by
      norm_num [resolveRate, orNum]
    have hw : resolveW ⟨1.5, DEFAULT_W⟩ = DEFAULT_W := rfl
    rw [hrate, hw, initialStability_default_GOOD, nextInterval,
      rpow_one_div_DECAY]
    norm_num [FACTOR]
  · simp only [newCard]
    rw [resolveW_default]
    exact initialStability_default_five

lemma initialStability_empty_GOOD : initialStability ([] : List ℝ) GOOD = 0 := by
  have h : (GOOD - 1 : ℝ) = ((2 : ℕ) : ℝ) := by norm_num [GOOD]
  rw [initialStability, h, jsIndex_natCast]
  rfl

/-- C4 counterexample: an empty weight array is *truthy* in JavaScript, so
`createDeck({requestedRetentionRate: 0, w: []})` keeps the empty vector and
its `newCard` does not behave like the default deck's: grading `GOOD` reads
a missing weight for the stability instead of the default `2.4`. -/
theorem C4_falsy_defaults_counterexample :
    newCard ⟨0, ([] : List ℝ)⟩ GOOD ≠ newCard DEFAULT_PARAMS GOOD := by
  intro h
  have hS : (newCard ⟨0, ([] : List ℝ)⟩ GOOD).S =
      (newCard DEFAULT_PARAMS GOOD).S := by rw [h]
  simp only [newCard] at hS
  rw [resolveW_default, initialStability_default_GOOD] at hS
  have h1 : initialStability (resolveW ⟨0, ([] : List ℝ)⟩) GOOD = 0 :=
    initialStability_empty_GOOD
  rw [h1] at hS
  norm_num at hS

/-- C4 amended: only the *number* field has a working falsy fallback: a
retention rate of `0` is replaced by the default `0.9`, while the `w` field,
being an array, is always truthy and is never substituted.  Overriding with
the default weights explicitly, `createDeck({requestedRetentionRate: 0,
w: DEFAULT_W})` behaves identically to `createDeck()`. -/
theorem C4_falsy_defaults_amended (g t : ℝ) (c : DifficultyAndStability) :
    resolveRate ⟨0, DEFAULT_W⟩ = 0.9 ∧
      newCard ⟨0, DEFAULT_W⟩ g = newCard DEFAULT_PARAMS g ∧
      gradeCard ⟨0, DEFAULT_W⟩ c t g = gradeCard DEFAULT_PARAMS c t g := by
  have hrate : resolveRate ⟨0, DEFAULT_W⟩ = resolveRate DEFAULT_PARAMS := by
    norm_num [resolveRate, orNum, DEFAULT_PARAMS]
  have hw : resolveW ⟨0, DEFAULT_W⟩ = resolveW DEFAULT_PARAMS := rfl
  refine ⟨by rw [hrate, resolveRate_default], ?_, ?_⟩
  · simp only [newCard]
    rw [hrate, hw]
  · simp only [gradeCard]
    rw [hrate, hw]

/-! ### Rational bounds on the transcendental constants appearing in the
reference end-to-end example -/

lemma exp_049_lb : (1.6323160 : ℝ) ≤ Real.exp 0.49 := by
  refine le_trans ?_ (Real.sum_le_exp_of_nonneg (by norm_num) 8)
  rw [Finset.sum_range_succ, Finset.sum_range_succ, Finset.sum_range_succ,
    Finset.sum_range_succ, Finset.sum_range_succ, Finset.sum_range_succ,
    Finset.sum_range_succ, Finset.sum_range_succ, Finset.sum_range_zero]
  norm_num [Nat.factorial]

lemma exp_049_ub : Real.exp 0.49 ≤ (1.6323163 : ℝ) := by
  refine le_trans (Real.exp_bound' (by norm_num) (by norm_num)
    (show 0 < 8 by norm_num)) ?_
  rw [Finset.sum_range_succ, Finset.sum_range_succ, Finset.sum_range_succ,
    Finset.sum_range_succ, Finset.sum_range_succ, Finset.sum_range_succ,
    Finset.sum_range_succ, Finset.sum_range_succ, Finset.sum_range_zero]
  norm_num [Nat.factorial]

lemma exp_149_lb : (4.437094 : ℝ) ≤ Real.exp 1.49 := by
  have h : Real.exp 1.49 = Real.exp 1 * Real.exp 0.49 := by
    rw [← Real.exp_add]
    norm_num
  rw [h]
  calc (4.437094 : ℝ) ≤ 2.7182818283 * 1.6323160 := by norm_num
  _ ≤ Real.exp 1 * Real.exp 0.49 :=
      mul_le_mul Real.exp_one_gt_d9.le exp_049_lb (by norm_num)
        (Real.exp_pos 1).le

lemma exp_149_ub : Real.exp 1.49 ≤ (4.437096 : ℝ) := by
  have h : Real.exp 1.49 = Real.exp 1 * Real.exp 0.49 := by
    rw [← Real.exp_add]
    norm_num
  rw [h]
  calc Real.exp 1 * Real.exp 0.49 ≤ 2.7182818286 * 1.6323163 :=
      mul_le_mul Real.exp_one_lt_d9.le exp_049_ub (Real.exp_pos 0.49).le
        (by norm_num)
  _ ≤ (4.437096 : ℝ) := by norm_num

/-- Raising `2.4 ^ (-0.14)` to the 50th power gives the rational
`2.4 ^ (-7)`, which pins it between rational bounds. -/
lemma rpow24_pow :
    ((2.4 : ℝ) ^ (-(0.14) : ℝ)) ^ (50 : ℕ) = ((2.4 : ℝ) ^ (7 : ℕ))⁻¹ := by
  have h1 : ((2.4 : ℝ) ^ (-(0.14) : ℝ)) ^ (50 : ℕ) =
      (2.4 : ℝ) ^ (-(0.14) * 50 : ℝ) := by
    rw [← Real.rpow_natCast ((2.4 : ℝ) ^ (-(0.14) : ℝ)) 50,
      ← Real.rpow_mul (by norm_num : (0 : ℝ) ≤ 2.4)]
    norm_num
  have h2 : (-(0.14) * 50 : ℝ) = ((-7 : ℤ) : ℝ) := by norm_num
  rw [h1, h2, Real.rpow_intCast]
  simp [zpow_neg]
  norm_cast

lemma rpow24_lb : (0.8842 : ℝ) ≤ (2.4 : ℝ) ^ (-(0.14) : ℝ) := by
  have hy : (0 : ℝ) < (2.4 : ℝ) ^ (-(0.14) : ℝ) :=
    Real.rpow_pos_of_pos (by norm_num) _
  have h : (0.8842 : ℝ) ^ (50 : ℕ) ≤ ((2.4 : ℝ) ^ (-(0.14) : ℝ)) ^ (50 : ℕ) := by
    rw [rpow24_pow]
    norm_num
  exact le_of_pow_le_pow_left₀ (by norm_num) hy.le h

lemma rpow24_ub : (2.4 : ℝ) ^ (-(0.14) : ℝ) ≤ (0.8851 : ℝ) := by
  have h : ((2.4 : ℝ) ^ (-(0.14) : ℝ)) ^ (50 : ℕ) ≤ (0.8851 : ℝ) ^ (50 : ℕ) := by
    rw [rpow24_pow]
    norm_num
  exact le_of_pow_le_pow_left₀ (by norm_num) (by norm_num) h

/-- Retrievability two days after a review with stability `2.4`, as a power
of a rational. -/
lemma retrievability_two : retrievability 2 2.4 = (581 / 486 : ℝ) ^ DECAY := by
  rw [retrievability]
  norm_num [FACTOR]

lemma r2_pow : ((581 / 486 : ℝ) ^ DECAY) ^ (2 : ℕ) = (486 / 581 : ℝ) := by
  have h1 : ((581 / 486 : ℝ) ^ DECAY) ^ (2 : ℕ) =
      (581 / 486 : ℝ) ^ (DECAY * 2) := by
    rw [← Real.rpow_natCast ((581 / 486 : ℝ) ^ DECAY) 2,
      ← Real.rpow_mul (by norm_num : (0 : ℝ) ≤ 581 / 486)]
    norm_num
  have h2 : (DECAY * 2 : ℝ) = ((-1 : ℤ) : ℝ) := by norm_num [DECAY]
  rw [h1, h2, Real.rpow_intCast]
  norm_num

lemma r2_lb : (0.91455 : ℝ) ≤ retrievability 2 2.4 := by
  rw [retrievability_two]
  have hy : (0 : ℝ) < (581 / 486 : ℝ) ^ DECAY :=
    Real.rpow_pos_of_pos (by norm_num) _
  have h : (0.91455 : ℝ) ^ (2 : ℕ) ≤ ((581 / 486 : ℝ) ^ DECAY) ^ (2 : ℕ) := by
    rw [r2_pow]
    norm_num
  exact le_of_pow_le_pow_left₀ (by norm_num) hy.le h

lemma r2_ub : retrievability 2 2.4 ≤ (0.91465 : ℝ) := by
  rw [retrievability_two]
  have h : ((581 / 486 : ℝ) ^ DECAY) ^ (2 : ℕ) ≤ (0.91465 : ℝ) ^ (2 : ℕ) := by
    rw [r2_pow]
    norm_num
  exact le_of_pow_le_pow_left₀ (by norm_num) (by norm_num) h

lemma exp_x_lb {x : ℝ} (hx : (0.080229 : ℝ) ≤ x) :
    (1.0835334 : ℝ) ≤ Real.exp x := by
  refine le_trans ?_ (Real.exp_le_exp.mpr hx)
  refine le_trans ?_ (Real.sum_le_exp_of_nonneg (by norm_num) 4)
  rw [Finset.sum_range_succ, Finset.sum_range_succ, Finset.sum_range_succ,
    Finset.sum_range_succ, Finset.sum_range_zero]
  norm_num [Nat.factorial]

lemma exp_x_ub {x : ℝ} (hx : x ≤ (0.080323 : ℝ)) :
    Real.exp x ≤ (1.0836375 : ℝ) := by
  refine le_trans (Real.exp_le_exp.mpr hx) ?_
  refine le_trans (Real.exp_bound' (by norm_num) (by norm_num)
    (show 0 < 4 by norm_num)) ?_
  rw [Finset.sum_range_succ, Finset.sum_range_succ, Finset.sum_range_succ,
    Finset.sum_range_succ, Finset.sum_range_zero]
  norm_num [Nat.factorial]

/-- With the reference deck, `newCard(GOOD)` is exactly
`{D := 4.93, S := 2.4, I := 2.4}`. -/
lemma newCard_good : newCard DEFAULT_PARAMS GOOD = ⟨4.93, 2.4, 2.4⟩ := by
  simp only [newCard]
  rw [resolveW_default, resolveRate_default]
  have hD : initialDifficulty DEFAULT_W GOOD = 4.93 := by
    rw [initialDifficulty, wget4, wget5]
    norm_num [GOOD, min_def, max_def]
  rw [hD, initialStability_default_GOOD, nextInterval_nine]

/-- Grading the day-one `GOOD` card `{D := 4.93, S := 2.4}` as `EASY` after
`t` days: the returned interval equals the new stability, spelled out with
the reference weight entries. -/
lemma gradeCard_easy_I (t : ℝ) :
    (gradeCard DEFAULT_PARAMS ⟨4.93, 2.4⟩ t EASY).I =
      2.4 * (1 + Real.exp 1.49 * 6.9214 * (2.4 : ℝ) ^ (-(0.14) : ℝ) *
        (Real.exp ((1 - retrievability t 2.4) * 0.94) - 1) * 1 * 2.61) := by
  simp only [gradeCard]
  rw [if_neg (by norm_num [EASY, AGAIN])]
  rw [resolveW_default, resolveRate_default, nextInterval_nine]
  have hD : nextDifficulty DEFAULT_W 4.93 EASY = 4.0786 := by
    rw [nextDifficulty_default]
    norm_num [EASY, min_def, max_def]
  rw [hD]
  simp only [nextStabilityAfterRecall]
  rw [if_neg (by norm_num [HARD, EASY])]
  simp only [if_true]
  rw [wget8, wget9, wget10, wget16]
  norm_num

/-- C3 counterexample: with the reference configuration, grading the
`newCard(GOOD)` card with `daysSinceReview = 2.4` and grade `EASY` yields an
interval above `18` days, which is more than one full day away from the
claimed `16.63`. -/
theorem C3_reference_example_counterexample :
    1 < |(gradeCard DEFAULT_PARAMS
        (Card.toDS (newCard DEFAULT_PARAMS GOOD)) 2.4 EASY).I - 16.63| := by
  rw [newCard_good,
    show Card.toDS ⟨4.93, 2.4, 2.4⟩ = (⟨4.93, 2.4⟩ : DifficultyAndStability)
      from rfl,
    gradeCard_easy_I, retrievability_self (by norm_num : (0 : ℝ) < 2.4)]
  have hexp94 : (0.094 : ℝ) ≤ Real.exp ((1 - 0.9) * 0.94) - 1 := by
    have h := Real.add_one_le_exp ((1 - 0.9) * (0.94 : ℝ))
    have harg : ((1 - 0.9) * (0.94 : ℝ)) = 0.094 := by norm_num
    rw [harg] at h ⊢
    linarith
  have h1 : (4.437094 * 6.9214 * 0.8842 * 0.094 * 1 * 2.61 : ℝ) ≤
      Real.exp 1.49 * 6.9214 * (2.4 : ℝ) ^ (-(0.14) : ℝ) *
        (Real.exp ((1 - 0.9) * 0.94) - 1) * 1 * 2.61 := by
    have hB0 : (0 : ℝ) ≤ (2.4 : ℝ) ^ (-(0.14) : ℝ) :=
      (Real.rpow_pos_of_pos (by norm_num) _).le
    gcongr
    · exact exp_149_lb
    · exact rpow24_lb
  have h2 : (18 : ℝ) ≤ 2.4 * (1 + Real.exp 1.49 * 6.9214 *
      (2.4 : ℝ) ^ (-(0.14) : ℝ) * (Real.exp ((1 - 0.9) * 0.94) - 1) * 1 *
      2.61) := by nlinarith [h1]
  rw [abs_of_nonneg (by linarith)]
  linarith

/-- C3 amended: with the reference configuration, `newCard(GOOD)` is exactly
`{D := 4.93, S := 2.4, I := 2.4}`, and grading that card with
`daysSinceReview = 2` (the README example) and grade `EASY` yields an
interval within `0.05` of `16.63` days. -/
theorem C3_reference_example_amended :
    newCard DEFAULT_PARAMS GOOD = ⟨4.93, 2.4, 2.4⟩ ∧
      |(gradeCard DEFAULT_PARAMS
          (Card.toDS (newCard DEFAULT_PARAMS GOOD)) 2 EASY).I - 16.63| ≤
        0.05 := by
  refine ⟨newCard_good, ?_⟩
  rw [newCard_good,
    show Card.toDS ⟨4.93, 2.4, 2.4⟩ = (⟨4.93, 2.4⟩ : DifficultyAndStability)
      from rfl,
    gradeCard_easy_I]
  have hrl := r2_lb
  have hru := r2_ub
  have hxl : (0.080229 : ℝ) ≤ (1 - retrievability 2 2.4) * 0.94 := by
    nlinarith
  have hxu : (1 - retrievability 2 2.4) * 0.94 ≤ (0.080323 : ℝ) := by
    nlinarith
  have hXl : (0.0835334 : ℝ) ≤
      Real.exp ((1 - retrievability 2 2.4) * 0.94) - 1 := by
    have := exp_x_lb hxl
    linarith
  have hXu : Real.exp ((1 - retrievability 2 2.4) * 0.94) - 1 ≤
      (0.0836375 : ℝ) := by
    have := exp_x_ub hxu
    linarith
  have hB0 : (0 : ℝ) ≤ (2.4 : ℝ) ^ (-(0.14) : ℝ) :=
    (Real.rpow_pos_of_pos (by norm_num) _).le
  have hlo : (4.437094 * 6.9214 * 0.8842 * 0.0835334 * 1 * 2.61 : ℝ) ≤
      Real.exp 1.49 * 6.9214 * (2.4 : ℝ) ^ (-(0.14) : ℝ) *
        (Real.exp ((1 - retrievability 2 2.4) * 0.94) - 1) * 1 * 2.61 := by
    gcongr
    · exact exp_149_lb
    · exact rpow24_lb
  have hhi : Real.exp 1.49 * 6.9214 * (2.4 : ℝ) ^ (-(0.14) : ℝ) *
      (Real.exp ((1 - retrievability 2 2.4) * 0.94) - 1) * 1 * 2.61 ≤
      (4.437096 * 6.9214 * 0.8851 * 0.0836375 * 1 * 2.61 : ℝ) := by
    gcongr
    · exact exp_149_ub
    · exact rpow24_ub
  rw [abs_le]
  constructor <;> nlinarith [hlo, hhi]

end FemtoFsrs
